import Mathlib

/-!
Shallow embedding of farm_game.py (the FarmingGame class): data model,
engine operations (plant, water, harvest, buy-seed, advance-day) and the
random-event policy, with the randomness source made explicit (a rational
sample in [0,1) for the event draw, and a natural-number index for the
uniform choice among growing plots).

Python dicts are embedded as ordered association lists with unique keys
(insertion order preserved, update in place, deletion removes the entry).
Python ints are embedded as Lean Int.  Each fallible operation returns the
new state paired with an optional error; the error taxonomy follows the
spec names.  Interactive input/printing is dropped: operations take their
already-parsed arguments (crop name string, 0-based plot index as Int,
matching the int(input)-1 of the source).
-/

/-- Static data of one crop kind, from the CROP_DATA table. -/
structure CropDef where
  growth_time : Int
  seed_price : Int
  sell_price : Int
  icon : String
  info : String
deriving Repr, DecidableEq

/-- The CROP_DATA table of farm_game.py. -/
def CROP_DATA : List (String × CropDef) :=
  [ ("wheat",  { growth_time := 4, seed_price := 10, sell_price := 25,
                 icon := "🌾", info := "A staple grain. Hardy and reliable." }),
    ("corn",   { growth_time := 5, seed_price := 15, sell_price := 40,
                 icon := "🌽", info := "A sweet and popular vegetable. Sells for a good price." }),
    ("potato", { growth_time := 3, seed_price := 5, sell_price := 15,
                 icon := "🥔", info := "Grows quickly, but sells for less. Good for beginners." }),
    ("carrot", { growth_time := 3, seed_price := 8, sell_price := 20,
                 icon := "🥕", info := "A fast-growing and profitable root vegetable." }) ]

def INITIAL_MONEY : Int := 100

def INITIAL_PLOTS : Nat := 4

def GAME_GOAL : Int := 500

/-- Lookup in CROP_DATA (Python: CROP_DATA[name], with the default only
reached where the source would raise KeyError on an unknown crop). -/
def cropDef (name : String) : CropDef :=
  (CROP_DATA.lookup name).getD { growth_time := 0, seed_price := 0, sell_price := 0,
                                 icon := "", info := "" }

/-- One farm plot: the dict with keys crop, growth_stage, watered. -/
structure Plot where
  crop : Option String
  growth_stage : Int
  watered : Bool
deriving Repr, DecidableEq

def emptyPlot : Plot := { crop := none, growth_stage := 0, watered := false }

/- Association-list embedding of a Python dict from string to int. -/

def dictGet : List (String × Int) → String → Int
  | [], _ => 0
  | (k2, v) :: t, k => if k2 == k then v else dictGet t k

def dictContains : List (String × Int) → String → Bool
  | [], _ => false
  | (k2, _) :: t, k => k2 == k || dictContains t k

/-- Python d[k] = v: update in place if present, append if absent. -/
def dictSet : List (String × Int) → String → Int → List (String × Int)
  | [], k, v => [(k, v)]
  | (k2, v2) :: t, k, v => if k2 == k then (k2, v) :: t else (k2, v2) :: dictSet t k v

/-- Python del d[k]. -/
def dictErase : List (String × Int) → String → List (String × Int)
  | [], _ => []
  | (k2, v2) :: t, k => if k2 == k then dictErase t k else (k2, v2) :: dictErase t k

/-- The mutable state of a FarmingGame instance. -/
structure FarmingGame where
  money : Int
  day : Int
  farm_plots : List Plot
  inventory : List (String × Int)
  game_over : Bool
deriving Repr, DecidableEq

/-- FarmingGame.__init__. -/
def initGame : FarmingGame :=
  { money := INITIAL_MONEY,
    day := 1,
    farm_plots := List.replicate INITIAL_PLOTS emptyPlot,
    inventory := [("wheat seeds", 5), ("potato seeds", 5)],
    game_over := false }

/-- The user-facing failure taxonomy of the engine operations. -/
inductive GameError where
  | InvalidPlotIndex
  | PlotOccupied
  | EmptyPlot
  | NotReady
  | InsufficientInventory
  | InsufficientFunds
  | UnknownCrop
deriving Repr, DecidableEq

/-- FarmingGame.plant: seed_to_plant is the crop name typed by the player,
plot_num the already-decoded 0-based index (int(input)-1 in the source). -/
def plant (g : FarmingGame) (seed_to_plant : String) (plot_num : Int) :
    FarmingGame × Option GameError :=
  let seed_name := seed_to_plant ++ " seeds"
  if ¬ dictContains g.inventory seed_name ∨ dictGet g.inventory seed_name = 0 then
    (g, some .InsufficientInventory)
  else if ¬ (0 ≤ plot_num ∧ plot_num < (g.farm_plots.length : Int)) then
    (g, some .InvalidPlotIndex)
  else if (g.farm_plots.getD plot_num.toNat emptyPlot).crop ≠ none then
    (g, some .PlotOccupied)
  else
    let plots := g.farm_plots.set plot_num.toNat
      { crop := some seed_to_plant, growth_stage := 0, watered := false }
    let inv1 := dictSet g.inventory seed_name (dictGet g.inventory seed_name - 1)
    let inv2 := if dictGet inv1 seed_name = 0 then dictErase inv1 seed_name else inv1
    ({ g with farm_plots := plots, inventory := inv2 }, none)

/-- FarmingGame.water. -/
def water (g : FarmingGame) (plot_num : Int) : FarmingGame × Option GameError :=
  if ¬ (0 ≤ plot_num ∧ plot_num < (g.farm_plots.length : Int)) then
    (g, some .InvalidPlotIndex)
  else if (g.farm_plots.getD plot_num.toNat emptyPlot).crop = none then
    (g, some .EmptyPlot)
  else
    let p := g.farm_plots.getD plot_num.toNat emptyPlot
    ({ g with farm_plots := g.farm_plots.set plot_num.toNat { p with watered := true } }, none)

/-- FarmingGame.harvest. -/
def harvest (g : FarmingGame) (plot_num : Int) : FarmingGame × Option GameError :=
  if ¬ (0 ≤ plot_num ∧ plot_num < (g.farm_plots.length : Int)) then
    (g, some .InvalidPlotIndex)
  else
    let p := g.farm_plots.getD plot_num.toNat emptyPlot
    match p.crop with
    | none => (g, some .EmptyPlot)
    | some crop_name =>
      if p.growth_stage < (cropDef crop_name).growth_time then
        (g, some .NotReady)
      else
        ({ g with money := g.money + (cropDef crop_name).sell_price,
                  farm_plots := g.farm_plots.set plot_num.toNat emptyPlot }, none)

/-- One purchase in FarmingGame.visit_shop: the body of the shop loop for a
single non-exit choice. -/
def visit_shop_buy (g : FarmingGame) (choice : String) : FarmingGame × Option GameError :=
  match CROP_DATA.lookup choice with
  | some data =>
    if g.money ≥ data.seed_price then
      let seed_name := choice ++ " seeds"
      ({ g with money := g.money - data.seed_price,
                inventory := dictSet g.inventory seed_name
                  (dictGet g.inventory seed_name + 1) }, none)
    else
      (g, some .InsufficientFunds)
  | none => (g, some .UnknownCrop)

/-- The per-plot body of the growth loop in FarmingGame.advance_day: only
occupied plots grow (when watered) and have their watered flag reset. -/
def growPlot (p : Plot) : Plot :=
  match p.crop with
  | none => p
  | some _ =>
    if p.watered then { p with growth_stage := p.growth_stage + 1, watered := false }
    else { p with watered := false }

/-- Indices of plots that are occupied and still growing — the
growing_plots comprehension of handle_random_event, kept as positions so
the damaged plot can be written back. -/
def growingIndices (g : FarmingGame) : List Nat :=
  (List.range g.farm_plots.length).filter
    (fun i =>
      let p := g.farm_plots.getD i emptyPlot
      match p.crop with
      | none => false
      | some c => decide (p.growth_stage < (cropDef c).growth_time))

/-- The 0.15 pest-event threshold of handle_random_event. -/
def PEST_THRESHOLD : ℚ := mkRat 15 100

/-- The 0.30 rain-event threshold of handle_random_event. -/
def RAIN_THRESHOLD : ℚ := mkRat 30 100

/-- FarmingGame.handle_random_event with the randomness injected: chance is
the random.random() sample, choice indexes the uniform pick of
random.choice among the growing plots. -/
def handle_random_event (g : FarmingGame) (chance : ℚ) (choice : Nat) : FarmingGame :=
  if chance < PEST_THRESHOLD then
    let gIdx := growingIndices g
    if gIdx.length = 0 then g
    else
      let j := gIdx.getD (choice % gIdx.length) 0
      let p := g.farm_plots.getD j emptyPlot
      { g with farm_plots :=
          g.farm_plots.set j { p with growth_stage := max 0 (p.growth_stage - 1) } }
  else if chance < RAIN_THRESHOLD then
    { g with farm_plots := g.farm_plots.map (fun p => { p with watered := true }) }
  else g

/-- FarmingGame.advance_day with the randomness injected. -/
def advance_day (g : FarmingGame) (chance : ℚ) (choice : Nat) : FarmingGame :=
  let g1 := { g with day := g.day + 1, farm_plots := g.farm_plots.map growPlot }
  let g2 := handle_random_event g1 chance choice
  if g2.money ≥ GAME_GOAL then { g2 with game_over := true } else g2

/-- A player intent, for reachability statements. -/
inductive Op where
  | plantOp (crop : String) (idx : Int)
  | waterOp (idx : Int)
  | harvestOp (idx : Int)
  | buyOp (crop : String)
  | advanceOp (chance : ℚ) (choice : Nat)
deriving Repr

/-- Apply one operation, keeping the (unchanged-on-failure) state. -/
def applyOp (g : FarmingGame) : Op → FarmingGame
  | .plantOp c i => (plant g c i).1
  | .waterOp i => (water g i).1
  | .harvestOp i => (harvest g i).1
  | .buyOp c => (visit_shop_buy g c).1
  | .advanceOp ch n => advance_day g ch n

/-- The state reached from the initial game by a sequence of operations. -/
def run (ops : List Op) : FarmingGame := ops.foldl applyOp initGame

/-! ## Association-list (Python dict) lemmas -/

lemma dictGet_dictSet_self (d : List (String × Int)) (k : String) (v : Int) :
    dictGet (dictSet d k v) k = v := by
  induction d with
  | nil => simp [dictSet, dictGet]
  | cons hd t ih =>
    obtain ⟨k2, v2⟩ := hd
    by_cases h : k2 == k
    · simp [dictSet, dictGet, h]
    · simp [dictSet, dictGet, h, ih]

lemma dictContains_dictSet_self (d : List (String × Int)) (k : String) (v : Int) :
    dictContains (dictSet d k v) k = true := by
  induction d with
  | nil => simp [dictSet, dictContains]
  | cons hd t ih =>
    obtain ⟨k2, v2⟩ := hd
    by_cases h : k2 == k
    · simp [dictSet, dictContains, h]
    · simp [dictSet, dictContains, h, ih]

lemma dictContains_dictErase_self (d : List (String × Int)) (k : String) :
    dictContains (dictErase d k) k = false := by
  induction d with
  | nil => simp [dictErase, dictContains]
  | cons hd t ih =>
    obtain ⟨k2, v2⟩ := hd
    by_cases h : k2 == k
    · simp [dictErase, h, ih]
    · simp [dictErase, dictContains, h, ih]

lemma dictGet_dictErase_self (d : List (String × Int)) (k : String) :
    dictGet (dictErase d k) k = 0 := by
  induction d with
  | nil => simp [dictErase, dictGet]
  | cons hd t ih =>
    obtain ⟨k2, v2⟩ := hd
    by_cases h : k2 == k
    · simp [dictErase, h, ih]
    · simp [dictErase, dictGet, h, ih]

/-! ## C10: the initial state -/

/-- C10: the initial state has day 1, balance 100, exactly 4 empty plots
(progress 0, unwatered), terminal flag false, and a non-empty inventory of
5 wheat seeds and 5 potato seeds. -/
theorem C10_initial_state :
    initGame.day = 1 ∧
    initGame.money = 100 ∧
    initGame.farm_plots.length = 4 ∧
    initGame.farm_plots = List.replicate 4 { crop := none, growth_stage := 0, watered := false } ∧
    initGame.game_over = false ∧
    initGame.inventory ≠ [] ∧
    dictGet initGame.inventory "wheat seeds" = 5 ∧
    dictGet initGame.inventory "potato seeds" = 5 ∧
    initGame.inventory = [("wheat seeds", 5), ("potato seeds", 5)] := by
  decide

/-! ## C3: the wheat scenario from the initial state -/

/-- Sample that selects the no-event branch of handle_random_event. -/
def noEventSample : ℚ := mkRat 1 2

def c3_ops_buy : List Op := [Op.buyOp "wheat"]

def c3_ops_plant : List Op := c3_ops_buy ++ [Op.plantOp "wheat" 0]

def c3_ops_water1 : List Op := c3_ops_plant ++ [Op.waterOp 0]

def c3_ops_adv1 : List Op := c3_ops_water1 ++ [Op.advanceOp noEventSample 0]

def c3_ops_adv4 : List Op :=
  c3_ops_adv1 ++
  [Op.waterOp 0, Op.advanceOp noEventSample 0,
   Op.waterOp 0, Op.advanceOp noEventSample 0,
   Op.waterOp 0, Op.advanceOp noEventSample 0]

def c3_ops_harvest : List Op := c3_ops_adv4 ++ [Op.harvestOp 0]

/-- C3 counterexample: the claim asserts that after the buy the inventory
is exactly one wheat seed and that planting empties it; in fact the game
starts with 5 wheat and 5 potato seeds, so the buy leaves 6 wheat seeds
and planting leaves a non-empty inventory. -/
theorem C3_counterexample :
    dictGet (run c3_ops_buy).inventory "wheat seeds" = 6 ∧
    ¬ dictGet (run c3_ops_buy).inventory "wheat seeds" = 1 ∧
    (run c3_ops_plant).inventory ≠ [] := by
  decide

/-- C3 (amended): the scenario with the actual starting inventory of
5 wheat and 5 potato seeds: buying one wheat seed gives balance 90 and
6 wheat seeds; planting in plot 0 gives plot0 = wheat/0/unwatered and
5 wheat seeds; water then advance (no event) gives progress 1 unwatered;
three more water+advance rounds give progress 4 = the wheat growth
duration; harvesting gives balance 115 and an empty plot 0. -/
theorem C3_scenario_amended :
    ((run c3_ops_buy).money = 90 ∧
     dictGet (run c3_ops_buy).inventory "wheat seeds" = 6 ∧
     dictGet (run c3_ops_buy).inventory "potato seeds" = 5) ∧
    ((run c3_ops_plant).farm_plots.getD 0 emptyPlot =
       { crop := some "wheat", growth_stage := 0, watered := false } ∧
     dictGet (run c3_ops_plant).inventory "wheat seeds" = 5 ∧
     dictGet (run c3_ops_plant).inventory "potato seeds" = 5) ∧
    ((run c3_ops_water1).farm_plots.getD 0 emptyPlot =
       { crop := some "wheat", growth_stage := 0, watered := true }) ∧
    ((run c3_ops_adv1).farm_plots.getD 0 emptyPlot =
       { crop := some "wheat", growth_stage := 1, watered := false }) ∧
    ((run c3_ops_adv4).farm_plots.getD 0 emptyPlot =
       { crop := some "wheat", growth_stage := 4, watered := false } ∧
     (cropDef "wheat").growth_time = 4) ∧
    ((run c3_ops_harvest).money = 115 ∧
     (run c3_ops_harvest).farm_plots.getD 0 emptyPlot = emptyPlot) := by
  decide

/-! ## C8: no partial mutation on failure -/

/-- C8: each fallible operation (plant, water, harvest, buy-seed) leaves
the whole state exactly as it was whenever it reports a failure. -/
theorem C8_no_mutation_on_failure (g : FarmingGame) (c : String) (i : Int) :
    ((plant g c i).2.isSome → (plant g c i).1 = g) ∧
    ((water g i).2.isSome → (water g i).1 = g) ∧
    ((harvest g i).2.isSome → (harvest g i).1 = g) ∧
    ((visit_shop_buy g c).2.isSome → (visit_shop_buy g c).1 = g) := by
  unfold plant water harvest visit_shop_buy
  refine ⟨?_, ?_, ?_, ?_⟩ <;> dsimp only <;> (repeat' split) <;> simp

/-- C8 witness: buying an unknown crop fails and changes nothing. -/
theorem C8_witness :
    (visit_shop_buy initGame "gold").2.isSome = true ∧
    (visit_shop_buy initGame "gold").1 = initGame := by
  refine ⟨by decide, ?_⟩
  exact (C8_no_mutation_on_failure initGame "gold" 0).2.2.2 (by decide)

/-! ## C6: plant precondition order and success effects -/

/-- C6: plant checks its preconditions in order — seed available, index in
range, plot empty — the first failing check deciding the error; on success
the plot holds the crop at progress 0 unwatered and exactly one seed is
consumed, the inventory entry disappearing when its count reaches zero. -/
theorem C6_plant_spec (g : FarmingGame) (c : String) (i : Int) :
    (dictContains g.inventory (c ++ " seeds") = false ∨
        dictGet g.inventory (c ++ " seeds") = 0 →
      plant g c i = (g, some GameError.InsufficientInventory)) ∧
    (dictContains g.inventory (c ++ " seeds") = true →
      dictGet g.inventory (c ++ " seeds") ≠ 0 →
      (¬ (0 ≤ i ∧ i < (g.farm_plots.length : Int)) →
        plant g c i = (g, some GameError.InvalidPlotIndex)) ∧
      (0 ≤ i → i < (g.farm_plots.length : Int) →
        ((g.farm_plots.getD i.toNat emptyPlot).crop ≠ none →
          plant g c i = (g, some GameError.PlotOccupied)) ∧
        ((g.farm_plots.getD i.toNat emptyPlot).crop = none →
          (plant g c i).2 = none ∧
          (plant g c i).1.farm_plots =
            g.farm_plots.set i.toNat
              { crop := some c, growth_stage := 0, watered := false } ∧
          (plant g c i).1.money = g.money ∧
          (plant g c i).1.day = g.day ∧
          (plant g c i).1.game_over = g.game_over ∧
          dictGet (plant g c i).1.inventory (c ++ " seeds") =
            dictGet g.inventory (c ++ " seeds") - 1 ∧
          (dictGet g.inventory (c ++ " seeds") = 1 →
            dictContains (plant g c i).1.inventory (c ++ " seeds") = false) ∧
          (dictGet g.inventory (c ++ " seeds") ≠ 1 →
            dictContains (plant g c i).1.inventory (c ++ " seeds") = true)))) := by
  unfold plant
  dsimp only
  constructor
  · intro h
    rw [if_pos]
    rcases h with h | h
    · exact Or.inl (by simp [h])
    · exact Or.inr h
  · intro h1 h2
    have hA : ¬ (¬ dictContains g.inventory (c ++ " seeds") = true ∨
        dictGet g.inventory (c ++ " seeds") = 0) := by
      push_neg
      exact ⟨by simp [h1], h2⟩
    rw [if_neg hA]
    constructor
    · intro hrange
      rw [if_pos hrange]
    · intro h3 h4
      rw [if_neg (not_not_intro ⟨h3, h4⟩)]
      constructor
      · intro hocc
        rw [if_pos hocc]
      · intro hempty
        rw [if_neg (not_not_intro hempty)]
        dsimp only
        refine ⟨rfl, rfl, rfl, rfl, rfl, ?_, ?_, ?_⟩
        · by_cases hz :
            dictGet (dictSet g.inventory (c ++ " seeds")
              (dictGet g.inventory (c ++ " seeds") - 1)) (c ++ " seeds") = 0
          · rw [if_pos hz, dictGet_dictErase_self]
            rw [dictGet_dictSet_self] at hz
            omega
          · rw [if_neg hz, dictGet_dictSet_self]
        · intro hone
          rw [if_pos (by rw [dictGet_dictSet_self, hone]; ring)]
          exact dictContains_dictErase_self _ _
        · intro hone
          rw [if_neg (by rw [dictGet_dictSet_self]; omega)]
          exact dictContains_dictSet_self _ _ _

/-- C6 witness: from the initial state, planting wheat in occupied or
out-of-range plots fails as specified, and planting in plot 0 succeeds,
leaving 4 wheat seeds. -/
theorem C6_witness :
    plant initGame "wheat" 7 = (initGame, some GameError.InvalidPlotIndex) ∧
    plant initGame "corn" 0 = (initGame, some GameError.InsufficientInventory) ∧
    (plant initGame "wheat" 0).2 = none ∧
    dictGet (plant initGame "wheat" 0).1.inventory "wheat seeds" = 4 := by
  refine ⟨?_, ?_, ?_, ?_⟩
  · exact ((C6_plant_spec initGame "wheat" 7).2 (by decide) (by decide)).1 (by decide)
  · exact (C6_plant_spec initGame "corn" 0).1 (by decide)
  · exact (((C6_plant_spec initGame "wheat" 0).2 (by decide) (by decide)).2
      (by decide) (by decide)).2 (by decide) |>.1
  · have h := (((C6_plant_spec initGame "wheat" 0).2 (by decide) (by decide)).2
      (by decide) (by decide)).2 (by decide)
    show dictGet (plant initGame "wheat" 0).1.inventory ("wheat" ++ " seeds") = 4
    rw [h.2.2.2.2.2.1]
    decide

/-! ## C7: buy-seed preconditions and effects -/

/-- C7: buying fails with UnknownCrop when the crop is not in CROP_DATA
and with InsufficientFunds when the balance is below its seed price; with
enough money it subtracts the seed price and adds one seed to the
inventory, creating the entry when absent. -/
theorem C7_visit_shop_spec (g : FarmingGame) (c : String) :
    (CROP_DATA.lookup c = none →
      visit_shop_buy g c = (g, some GameError.UnknownCrop)) ∧
    (∀ data, CROP_DATA.lookup c = some data →
      (g.money < data.seed_price →
        visit_shop_buy g c = (g, some GameError.InsufficientFunds)) ∧
      (data.seed_price ≤ g.money →
        (visit_shop_buy g c).2 = none ∧
        (visit_shop_buy g c).1.money = g.money - data.seed_price ∧
        dictGet (visit_shop_buy g c).1.inventory (c ++ " seeds") =
          dictGet g.inventory (c ++ " seeds") + 1 ∧
        dictContains (visit_shop_buy g c).1.inventory (c ++ " seeds") = true ∧
        (visit_shop_buy g c).1.day = g.day ∧
        (visit_shop_buy g c).1.farm_plots = g.farm_plots ∧
        (visit_shop_buy g c).1.game_over = g.game_over)) := by
  unfold visit_shop_buy
  constructor
  · intro h
    rw [h]
  · intro data h
    rw [h]
    dsimp only
    constructor
    · intro hlt
      rw [if_neg (by omega)]
    · intro hle
      rw [if_pos (by omega)]
      dsimp only
      exact ⟨rfl, rfl, dictGet_dictSet_self _ _ _, dictContains_dictSet_self _ _ _,
        rfl, rfl, rfl⟩

/-- C7 witness: with balance 3 a wheat seed (price 10) is refused with
InsufficientFunds; unknown crops are refused; from the initial state a
carrot seed purchase creates the absent inventory entry. -/
theorem C7_witness :
    visit_shop_buy { initGame with money := 3 } "wheat" =
      ({ initGame with money := 3 }, some GameError.InsufficientFunds) ∧
    visit_shop_buy initGame "gold" = (initGame, some GameError.UnknownCrop) ∧
    (visit_shop_buy initGame "carrot").2 = none ∧
    (visit_shop_buy initGame "carrot").1.money = 92 ∧
    dictContains (visit_shop_buy initGame "carrot").1.inventory "carrot seeds" = true := by
  refine ⟨?_, ?_, ?_, ?_, ?_⟩
  · exact ((C7_visit_shop_spec { initGame with money := 3 } "wheat").2
      (cropDef "wheat") (by decide)).1 (by decide)
  · exact (C7_visit_shop_spec initGame "gold").1 (by decide)
  · exact ((C7_visit_shop_spec initGame "carrot").2 (cropDef "carrot") (by decide)).2
      (by decide) |>.1
  · have h := ((C7_visit_shop_spec initGame "carrot").2 (cropDef "carrot") (by decide)).2
      (by decide)
    rw [h.2.1]
    decide
  · exact (((C7_visit_shop_spec initGame "carrot").2 (cropDef "carrot") (by decide)).2
      (by decide)).2.2.2.1

/-! ## Helper lemmas about plots and the day cycle -/

lemma getD_map_growPlot (l : List Plot) (i : Nat) (h : i < l.length) :
    (l.map growPlot).getD i emptyPlot = growPlot (l.getD i emptyPlot) := by
  rw [List.getD_eq_getElem?_getD, List.getD_eq_getElem?_getD, List.getElem?_map,
    List.getElem?_eq_getElem h]
  rfl

lemma getD_mem (l : List Plot) (i : Nat) (h : i < l.length) :
    l.getD i emptyPlot ∈ l := by
  rw [List.getD_eq_getElem?_getD, List.getElem?_eq_getElem h]
  exact List.getElem_mem h

lemma handle_random_event_no_event (g : FarmingGame) (chance : ℚ) (choice : Nat)
    (h : RAIN_THRESHOLD ≤ chance) : handle_random_event g chance choice = g := by
  have h2 : PEST_THRESHOLD ≤ RAIN_THRESHOLD := by decide
  unfold handle_random_event
  rw [if_neg (not_lt.mpr (h2.trans h)), if_neg (not_lt.mpr h)]

lemma advance_day_no_event (g : FarmingGame) (chance : ℚ) (choice : Nat)
    (h : RAIN_THRESHOLD ≤ chance) :
    (advance_day g chance choice).farm_plots = g.farm_plots.map growPlot ∧
    (advance_day g chance choice).day = g.day + 1 := by
  unfold advance_day
  dsimp only
  rw [handle_random_event_no_event _ _ _ h]
  split <;> exact ⟨rfl, rfl⟩

/-! ## C5: harvest readiness -/

/-- A state with an overgrown wheat plot (progress 5 beyond the duration
4), as the uncapped day-advance produces for a watered ready plot. -/
def c5_gx : FarmingGame :=
  { money := 40, day := 7,
    farm_plots :=
      [ { crop := some "wheat", growth_stage := 5, watered := false },
        emptyPlot, emptyPlot, emptyPlot ],
    inventory := [("potato seeds", 5)],
    game_over := false }

/-- C5 counterexample: the claim makes harvest fail with NotReady whenever
progress differs from the growth duration, but harvesting a wheat plot at
progress 5 > 4 succeeds and pays out. -/
theorem C5_counterexample :
    (c5_gx.farm_plots.getD 0 emptyPlot).crop = some "wheat" ∧
    (c5_gx.farm_plots.getD 0 emptyPlot).growth_stage = 5 ∧
    (cropDef "wheat").growth_time = 4 ∧
    (c5_gx.farm_plots.getD 0 emptyPlot).growth_stage ≠ (cropDef "wheat").growth_time ∧
    (harvest c5_gx 0).2 ≠ some GameError.NotReady ∧
    (harvest c5_gx 0).2 = none ∧
    (harvest c5_gx 0).1.money = 65 := by
  decide

/-- C5 (amended): for an in-range occupied plot, harvest succeeds exactly
when progress is at least the growth duration (also above it), adding the
sale price and resetting the plot to empty; it fails with NotReady exactly
when progress is strictly below the duration. -/
theorem C5_harvest_amended (g : FarmingGame) (i : Int) (c : String)
    (h0 : 0 ≤ i) (h1 : i < (g.farm_plots.length : Int))
    (hc : (g.farm_plots.getD i.toNat emptyPlot).crop = some c) :
    ((cropDef c).growth_time ≤ (g.farm_plots.getD i.toNat emptyPlot).growth_stage →
      (harvest g i).2 = none ∧
      (harvest g i).1.money = g.money + (cropDef c).sell_price ∧
      (harvest g i).1.farm_plots = g.farm_plots.set i.toNat emptyPlot ∧
      (harvest g i).1.day = g.day ∧
      (harvest g i).1.inventory = g.inventory ∧
      (harvest g i).1.game_over = g.game_over) ∧
    ((g.farm_plots.getD i.toNat emptyPlot).growth_stage < (cropDef c).growth_time →
      harvest g i = (g, some GameError.NotReady)) := by
  unfold harvest
  rw [if_neg (not_not_intro ⟨h0, h1⟩)]
  dsimp only
  rw [hc]
  dsimp only
  constructor
  · intro hge
    rw [if_neg (by omega)]
    exact ⟨rfl, rfl, rfl, rfl, rfl, rfl⟩
  · intro hlt
    rw [if_pos hlt]

/-- C5 witness: harvesting the overgrown wheat plot of c5_gx succeeds with
the wheat sale price. -/
theorem C5_harvest_amended_witness :
    (harvest c5_gx 0).2 = none ∧
    (harvest c5_gx 0).1.money = c5_gx.money + (cropDef "wheat").sell_price ∧
    (harvest c5_gx 0).1.farm_plots = c5_gx.farm_plots.set 0 emptyPlot := by
  have h := (C5_harvest_amended c5_gx 0 "wheat" (by decide) (by decide) (by decide)).1
    (by decide)
  exact ⟨h.1, h.2.1, h.2.2.1⟩

/-! ## C2: the day-advance transition -/

/-- A state with a watered ready wheat plot and an empty plot left watered
by an earlier rain. -/
def c2_gx : FarmingGame :=
  { money := 100, day := 3,
    farm_plots :=
      [ { crop := some "wheat", growth_stage := 4, watered := true },
        { crop := none, growth_stage := 0, watered := true },
        emptyPlot, emptyPlot ],
    inventory := [("potato seeds", 5)],
    game_over := false }

/-- C2 counterexample: advancing the day with no random event pushes the
watered ready wheat plot to progress 5, beyond its growth duration 4 (no
cap exists), and leaves the watered empty plot watered (the reset only
touches occupied plots) — against the claimed cap and all-unwatered
outcome. -/
theorem C2_counterexample :
    (cropDef "wheat").growth_time = 4 ∧
    ((advance_day c2_gx noEventSample 0).farm_plots.getD 0 emptyPlot).growth_stage = 5 ∧
    ¬ ((advance_day c2_gx noEventSample 0).farm_plots.getD 0 emptyPlot).growth_stage ≤
        (cropDef "wheat").growth_time ∧
    ((advance_day c2_gx noEventSample 0).farm_plots.getD 1 emptyPlot).watered = true := by
  decide

/-- C2 (amended): with no random event, advance-day increments the day by
1 and, plot by plot: an empty plot is untouched (its watered flag
persists); an occupied plot keeps its crop, ends unwatered, and its
progress grows by exactly 1 when watered — with no cap, so it can exceed
the growth duration — and is unchanged when dry. -/
theorem C2_advance_day_amended (g : FarmingGame) (chance : ℚ) (choice : Nat) (i : Nat)
    (hch : RAIN_THRESHOLD ≤ chance) (hi : i < g.farm_plots.length) :
    (advance_day g chance choice).day = g.day + 1 ∧
    (advance_day g chance choice).farm_plots.length = g.farm_plots.length ∧
    ((g.farm_plots.getD i emptyPlot).crop = none →
      (advance_day g chance choice).farm_plots.getD i emptyPlot =
        g.farm_plots.getD i emptyPlot) ∧
    ((g.farm_plots.getD i emptyPlot).crop.isSome →
      ((advance_day g chance choice).farm_plots.getD i emptyPlot).crop =
        (g.farm_plots.getD i emptyPlot).crop ∧
      ((advance_day g chance choice).farm_plots.getD i emptyPlot).watered = false ∧
      ((advance_day g chance choice).farm_plots.getD i emptyPlot).growth_stage =
        (if (g.farm_plots.getD i emptyPlot).watered then
          (g.farm_plots.getD i emptyPlot).growth_stage + 1
        else (g.farm_plots.getD i emptyPlot).growth_stage)) := by
  obtain ⟨hplots, hday⟩ := advance_day_no_event g chance choice hch
  rw [hplots, hday]
  refine ⟨rfl, by rw [List.length_map], ?_, ?_⟩
  · intro hnone
    rw [getD_map_growPlot _ _ hi]
    unfold growPlot
    rw [hnone]
  · intro hsome
    rw [getD_map_growPlot _ _ hi]
    obtain ⟨c, hc⟩ := Option.isSome_iff_exists.mp hsome
    unfold growPlot
    rw [hc]
    dsimp only
    by_cases hw : (g.farm_plots.getD i emptyPlot).watered
    · rw [if_pos hw, if_pos hw]
      exact ⟨rfl, rfl, rfl⟩
    · rw [if_neg hw, if_neg hw]
      exact ⟨rfl, rfl, rfl⟩

/-- A mid-game state: one wheat plot at progress 1, watered. -/
def c2_gw : FarmingGame :=
  { money := 90, day := 2,
    farm_plots :=
      [ { crop := some "wheat", growth_stage := 1, watered := true },
        emptyPlot, emptyPlot, emptyPlot ],
    inventory := [("wheat seeds", 4), ("potato seeds", 5)],
    game_over := false }

/-- C2 witness: the watered wheat plot of c2_gw grows from 1 to 2 and ends
unwatered, and the day advances from 2 to 3. -/
theorem C2_advance_day_amended_witness :
    (advance_day c2_gw noEventSample 0).day = c2_gw.day + 1 ∧
    ((advance_day c2_gw noEventSample 0).farm_plots.getD 0 emptyPlot).growth_stage = 2 ∧
    ((advance_day c2_gw noEventSample 0).farm_plots.getD 0 emptyPlot).watered = false := by
  have h := C2_advance_day_amended c2_gw noEventSample 0 0 (by decide) (by decide)
  refine ⟨h.1, ?_, (h.2.2.2 (by decide)).2.1⟩
  rw [(h.2.2.2 (by decide)).2.2]
  decide

/-! ## Invariant machinery over operation sequences -/

lemma growPlot_stage_nonneg (p : Plot) (h : 0 ≤ p.growth_stage) :
    0 ≤ (growPlot p).growth_stage := by
  unfold growPlot
  cases hc : p.crop with
  | none => exact h
  | some c =>
    dsimp only
    by_cases hw : p.watered
    · rw [if_pos hw]; dsimp only; omega
    · rw [if_neg hw]; exact h

lemma plots_nonneg_handle_event (g : FarmingGame) (chance : ℚ) (choice : Nat)
    (h : ∀ p ∈ g.farm_plots, 0 ≤ p.growth_stage) :
    ∀ p ∈ (handle_random_event g chance choice).farm_plots, 0 ≤ p.growth_stage := by
  unfold handle_random_event
  dsimp only
  split
  · split
    · exact h
    · intro p hp
      rcases List.mem_or_eq_of_mem_set hp with h1 | h1
      · exact h p h1
      · rw [h1]
        dsimp only
        exact le_max_left _ _
  · split
    · intro p hp
      dsimp only at hp
      rcases List.mem_map.mp hp with ⟨q, hq, rfl⟩
      exact h q hq
    · exact h

lemma plots_nonneg_applyOp (g : FarmingGame) (op : Op)
    (h : ∀ p ∈ g.farm_plots, 0 ≤ p.growth_stage) :
    ∀ p ∈ (applyOp g op).farm_plots, 0 ≤ p.growth_stage := by
  cases op with
  | plantOp c i =>
    unfold applyOp plant
    dsimp only
    split
    · exact h
    · split
      · exact h
      · split
        · exact h
        · intro p hp
          rcases List.mem_or_eq_of_mem_set hp with h1 | h1
          · exact h p h1
          · rw [h1]
  | waterOp i =>
    unfold applyOp water
    dsimp only
    split
    · exact h
    next hrange =>
      split
      · exact h
      · intro p hp
        rcases List.mem_or_eq_of_mem_set hp with h1 | h1
        · exact h p h1
        · rw [h1]
          rw [not_not] at hrange
          show 0 ≤ (g.farm_plots.getD i.toNat emptyPlot).growth_stage
          exact h _ (getD_mem _ _ (by omega))
  | harvestOp i =>
    unfold applyOp harvest
    dsimp only
    split
    · exact h
    · split
      · exact h
      · split
        · exact h
        · intro p hp
          rcases List.mem_or_eq_of_mem_set hp with h1 | h1
          · exact h p h1
          · rw [h1]
            decide
  | buyOp c =>
    unfold applyOp visit_shop_buy
    dsimp only
    split
    · split
      · exact h
      · exact h
    · exact h
  | advanceOp ch n =>
    unfold applyOp advance_day
    dsimp only
    have h1 : ∀ p ∈ g.farm_plots.map growPlot, 0 ≤ p.growth_stage := by
      intro p hp
      rcases List.mem_map.mp hp with ⟨q, hq, rfl⟩
      exact growPlot_stage_nonneg q (h q hq)
    have h2 := plots_nonneg_handle_event
      { money := g.money, day := g.day + 1, farm_plots := g.farm_plots.map growPlot,
        inventory := g.inventory, game_over := g.game_over } ch n h1
    split
    · exact h2
    · exact h2

lemma plots_nonneg_foldl (ops : List Op) :
    ∀ g : FarmingGame, (∀ p ∈ g.farm_plots, 0 ≤ p.growth_stage) →
    ∀ p ∈ (ops.foldl applyOp g).farm_plots, 0 ≤ p.growth_stage := by
  induction ops with
  | nil => exact fun g h => h
  | cons op t ih => exact fun g h => ih _ (plots_nonneg_applyOp g op h)

/-! ## C1: the progress invariant -/

/-- A run that keeps watering a ready wheat plot: five water+advance
rounds push the plot one day past its growth duration. -/
def c1_ops : List Op :=
  [Op.plantOp "wheat" 0,
   Op.waterOp 0, Op.advanceOp noEventSample 0,
   Op.waterOp 0, Op.advanceOp noEventSample 0,
   Op.waterOp 0, Op.advanceOp noEventSample 0,
   Op.waterOp 0, Op.advanceOp noEventSample 0,
   Op.waterOp 0, Op.advanceOp noEventSample 0]

/-- C1 counterexample: the state reached by c1_ops is reachable from the
initial game yet its wheat plot sits at progress 5, strictly above the
growth duration 4 — the claimed upper bound fails on the code. -/
theorem C1_counterexample :
    ((run c1_ops).farm_plots.getD 0 emptyPlot).crop = some "wheat" ∧
    ((run c1_ops).farm_plots.getD 0 emptyPlot).growth_stage = 5 ∧
    (cropDef "wheat").growth_time = 4 ∧
    ¬ ((run c1_ops).farm_plots.getD 0 emptyPlot).growth_stage ≤
        (cropDef "wheat").growth_time := by
  decide

/-- C1 (amended): in every reachable state every plot's progress is
non-negative; the claimed upper bound by the growth duration does not hold
(progress can pass it, see the counterexample). -/
theorem C1_progress_nonneg_amended (ops : List Op) :
    ∀ p ∈ (run ops).farm_plots, 0 ≤ p.growth_stage :=
  plots_nonneg_foldl ops initGame (by decide)

/-- C1 witness: the first plot of the c1_ops run has non-negative
progress. -/
theorem C1_progress_nonneg_amended_witness :
    (run c1_ops).farm_plots.getD 0 emptyPlot ∈ (run c1_ops).farm_plots ∧
    0 ≤ ((run c1_ops).farm_plots.getD 0 emptyPlot).growth_stage :=
  ⟨by decide, C1_progress_nonneg_amended c1_ops _ (by decide)⟩

/-! ## C9: the balance invariant -/

lemma cropDef_sell_price_nonneg (s : String) : 0 ≤ (cropDef s).sell_price := by
  unfold cropDef CROP_DATA
  simp only [List.lookup]
  repeat' split
  all_goals decide

lemma advance_day_money (g : FarmingGame) (chance : ℚ) (choice : Nat) :
    (advance_day g chance choice).money = g.money := by
  unfold advance_day handle_random_event
  dsimp only
  repeat' split
  all_goals rfl

lemma money_nonneg_applyOp (g : FarmingGame) (op : Op) (h : 0 ≤ g.money) :
    0 ≤ (applyOp g op).money := by
  cases op with
  | plantOp c i =>
    unfold applyOp plant
    dsimp only
    repeat' split
    all_goals exact h
  | waterOp i =>
    unfold applyOp water
    dsimp only
    repeat' split
    all_goals exact h
  | harvestOp i =>
    unfold applyOp harvest
    dsimp only
    repeat' split
    case _ => exact h
    case _ => exact h
    case _ => exact h
    case _ => exact add_nonneg h (cropDef_sell_price_nonneg _)
  | buyOp c =>
    unfold applyOp visit_shop_buy
    dsimp only
    split
    · split
      · next hge => exact sub_nonneg.mpr hge
      · exact h
    · exact h
  | advanceOp ch n =>
    unfold applyOp
    rw [advance_day_money]
    exact h

lemma money_nonneg_foldl (ops : List Op) :
    ∀ g : FarmingGame, 0 ≤ g.money → 0 ≤ (ops.foldl applyOp g).money := by
  induction ops with
  | nil => exact fun g h => h
  | cons op t ih => exact fun g h => ih _ (money_nonneg_applyOp g op h)

/-- C9: the currency balance is non-negative in every state reachable from
the initial game by any sequence of plant, water, harvest, buy-seed and
advance-day operations. -/
theorem C9_money_nonneg (ops : List Op) : 0 ≤ (run ops).money :=
  money_nonneg_foldl ops initGame (by decide)

/-! ## C4: the random-event policy -/

lemma mem_growingIndices (g : FarmingGame) (j : Nat) (h : j ∈ growingIndices g) :
    j < g.farm_plots.length ∧
    ∃ c, (g.farm_plots.getD j emptyPlot).crop = some c ∧
      (g.farm_plots.getD j emptyPlot).growth_stage < (cropDef c).growth_time := by
  unfold growingIndices at h
  rw [List.mem_filter] at h
  obtain ⟨hr, hp⟩ := h
  refine ⟨List.mem_range.mp hr, ?_⟩
  dsimp only at hp
  cases hc : (g.farm_plots.getD j emptyPlot).crop with
  | none => rw [hc] at hp; exact absurd hp (by simp)
  | some c =>
    rw [hc] at hp
    exact ⟨c, rfl, of_decide_eq_true hp⟩

/-- The plot index the pest event damages, as a function of the injected
uniform choice: an element of the growing set chosen by the index. -/
def pestTarget (g : FarmingGame) (choice : Nat) : Nat :=
  (growingIndices g).getD (choice % (growingIndices g).length) 0

/-- C4: the random-event policy with the sample in [0,1): the named
thresholds are 0.15 and 0.30; exactly one of pest, rain, no-event fires;
at or above 0.30 the state is untouched; in [0.15,0.30) every plot —
occupied or empty — gets watered = true and nothing else changes; below
0.15 nothing happens when no occupied plot is still growing, otherwise the
chosen member of the growing set (all of whose members are occupied plots
with progress below their growth duration) has its progress decremented by
1 floored at 0, with everything else unchanged. -/
theorem C4_random_event_policy (g : FarmingGame) (chance : ℚ) (choice : Nat)
    (h0 : 0 ≤ chance) (h1 : chance < 1) :
    (PEST_THRESHOLD = 15/100 ∧ RAIN_THRESHOLD = 30/100) ∧
    ((chance < PEST_THRESHOLD ∧
        ¬ (PEST_THRESHOLD ≤ chance ∧ chance < RAIN_THRESHOLD) ∧
        ¬ RAIN_THRESHOLD ≤ chance) ∨
     (¬ chance < PEST_THRESHOLD ∧
        (PEST_THRESHOLD ≤ chance ∧ chance < RAIN_THRESHOLD) ∧
        ¬ RAIN_THRESHOLD ≤ chance) ∨
     (¬ chance < PEST_THRESHOLD ∧
        ¬ (PEST_THRESHOLD ≤ chance ∧ chance < RAIN_THRESHOLD) ∧
        RAIN_THRESHOLD ≤ chance)) ∧
    (RAIN_THRESHOLD ≤ chance → handle_random_event g chance choice = g) ∧
    (PEST_THRESHOLD ≤ chance → chance < RAIN_THRESHOLD →
      (handle_random_event g chance choice).farm_plots =
        g.farm_plots.map (fun p => { p with watered := true }) ∧
      (handle_random_event g chance choice).money = g.money ∧
      (handle_random_event g chance choice).day = g.day ∧
      (handle_random_event g chance choice).inventory = g.inventory ∧
      (handle_random_event g chance choice).game_over = g.game_over) ∧
    (chance < PEST_THRESHOLD →
      (growingIndices g = [] → handle_random_event g chance choice = g) ∧
      (growingIndices g ≠ [] →
        pestTarget g choice ∈ growingIndices g ∧
        (∀ j ∈ growingIndices g, j < g.farm_plots.length ∧
          ∃ c, (g.farm_plots.getD j emptyPlot).crop = some c ∧
            (g.farm_plots.getD j emptyPlot).growth_stage < (cropDef c).growth_time) ∧
        (handle_random_event g chance choice).farm_plots =
          g.farm_plots.set (pestTarget g choice)
            { g.farm_plots.getD (pestTarget g choice) emptyPlot with
              growth_stage :=
                max 0 ((g.farm_plots.getD (pestTarget g choice)
                  emptyPlot).growth_stage - 1) } ∧
        (handle_random_event g chance choice).money = g.money ∧
        (handle_random_event g chance choice).day = g.day ∧
        (handle_random_event g chance choice).inventory = g.inventory ∧
        (handle_random_event g chance choice).game_over = g.game_over)) := by
  have hp : PEST_THRESHOLD < RAIN_THRESHOLD := by decide
  refine ⟨⟨?_, ?_⟩, ?_, ?_, ?_, ?_⟩
  · rw [PEST_THRESHOLD, Rat.mkRat_eq_divInt, Rat.divInt_eq_div]
    norm_num
  · rw [RAIN_THRESHOLD, Rat.mkRat_eq_divInt, Rat.divInt_eq_div]
    norm_num
  · rcases lt_or_le chance PEST_THRESHOLD with hA | hA
    · exact Or.inl ⟨hA, fun h2 => absurd hA (not_lt.mpr h2.1),
        not_le.mpr (hA.trans hp)⟩
    · rcases lt_or_le chance RAIN_THRESHOLD with hB | hB
      · exact Or.inr (Or.inl ⟨not_lt.mpr hA, ⟨hA, hB⟩, not_le.mpr hB⟩)
      · exact Or.inr (Or.inr ⟨not_lt.mpr hA,
          fun h2 => absurd h2.2 (not_lt.mpr hB), hB⟩)
  · exact fun h => handle_random_event_no_event g chance choice h
  · intro hge hlt
    unfold handle_random_event
    rw [if_neg (not_lt.mpr hge), if_pos hlt]
    exact ⟨rfl, rfl, rfl, rfl, rfl⟩
  · intro hlt
    constructor
    · intro hnil
      unfold handle_random_event
      rw [if_pos hlt]
      dsimp only
      rw [if_pos (by rw [hnil]; rfl)]
    · intro hne
      have hlen : 0 < (growingIndices g).length := List.length_pos.mpr hne
      have hmod : choice % (growingIndices g).length < (growingIndices g).length :=
        Nat.mod_lt _ hlen
      have hmem : pestTarget g choice ∈ growingIndices g := by
        unfold pestTarget
        rw [List.getD_eq_getElem?_getD, List.getElem?_eq_getElem hmod]
        exact List.getElem_mem hmod
      refine ⟨hmem, fun j hj => mem_growingIndices g j hj, ?_⟩
      unfold handle_random_event pestTarget
      rw [if_pos hlt]
      dsimp only
      rw [if_neg (by omega)]
      exact ⟨rfl, rfl, rfl, rfl, rfl⟩

/-- C4 witness: a sample of one half picks the no-event branch and leaves
the initial state untouched. -/
theorem C4_random_event_policy_witness :
    (0 : ℚ) ≤ mkRat 1 2 ∧ (mkRat 1 2 : ℚ) < 1 ∧
    handle_random_event initGame (mkRat 1 2) 0 = initGame := by
  refine ⟨by decide, by decide, ?_⟩
  exact (C4_random_event_policy initGame (mkRat 1 2) 0 (by decide) (by decide)).2.2.1
    (by decide)
